import Mathlib

set_option maxRecDepth 100000

/-!
Verification of the reduced regular-expression matcher in `regex/regex.c`.

The development shallowly embeds the three functions of the C source:

* `_count`   (validating counter)   → `RegexC.countC`
* `_set_jump` (layout + wiring)     → `RegexC.setJumpC`
* `match`    (two-stack simulator)  → `RegexC.matchC`

Machine integers are modelled as `Int` (no overflow is reachable for the
inputs considered, all quantities stay far below 2^31).  The single
`malloc` block used by `_set_jump` is modelled as one flat `Array Int`
with the exact offsets of the C code, so that the in-block aliasing the
C program relies on (for instance `group_nexts[n_groups]` overlapping
`gi_stack[0]`) is reproduced faithfully.  Accesses that leave the int
block (these read or clobber the adjacent char stacks, with
memory-layout-dependent results) set a sticky `oob` flag and otherwise
read `0` / drop the write.  The simulator's two stacks are modelled as
lists (head = top of stack); the drain loop of the C code can diverge,
so the simulator takes a step-count fuel and returns `none` when the
fuel is exhausted.
-/

namespace RegexC

/-- The NUL character terminating C strings. -/
def nulc : Char := Char.ofNat 0

/-- `s[i]` for a NUL-terminated C string modelled as a `List Char`:
reading at or past the end yields NUL. -/
def charAt (s : List Char) (i : Nat) : Char := s.getD i nulc

/-- Read an `Int`-indexed array cell; out-of-range reads yield 0
(they are flagged separately where that matters). -/
def agetI (a : Array Int) (idx : Int) : Int :=
  if 0 ≤ idx then a.getD idx.toNat 0 else 0

/-- Write an `Int`-indexed array cell; out-of-range writes are dropped. -/
def asetI (a : Array Int) (idx : Int) (v : Int) : Array Int :=
  if 0 ≤ idx then a.setD idx.toNat v else a

/-- Read an `Int`-indexed char array cell. -/
def agetC (a : Array Char) (idx : Int) : Char :=
  if 0 ≤ idx then a.getD idx.toNat nulc else nulc

/-- Write an `Int`-indexed char array cell. -/
def asetC (a : Array Char) (idx : Int) (v : Char) : Array Char :=
  if 0 ≤ idx then a.setD idx.toNat v else a

/-- Read an `Int`-indexed boolean flag array cell. -/
def agetB (a : Array Bool) (idx : Int) : Bool :=
  if 0 ≤ idx then a.getD idx.toNat false else false

/-- Write an `Int`-indexed boolean flag array cell. -/
def asetB (a : Array Bool) (idx : Int) (v : Bool) : Array Bool :=
  if 0 ≤ idx then a.setD idx.toNat v else a

/-- Is an `Int` index inside an array of size `n`? -/
def inRange (idx : Int) (n : Nat) : Bool := 0 ≤ idx ∧ idx < (n : Int)

/-! ### `_count`: the validating counter

`_count` walks the pattern once, counting tokens and groups and
rejecting malformed patterns.  Its inner character-class loop is
flattened into the outer loop through the `inClass` flag (the C inner
loop performs no checks besides `']'`/NUL, so the flattening is exact).
Error returns are `(-(position)-1, errcode)` with the error codes of
the C `#define`s: `-1` no tokens, `-2` unclosed group / unterminated
class, `-3` syntax, `-4` empty group.  -/

structure CountSt where
  tokens : Int
  groups : Int
  gc : Int
  inClass : Bool
  tig : Int
  deriving Repr, DecidableEq

def countAux : List Char → Nat → Char → CountSt → Int × Int
  | [], i, _, st =>
      if st.inClass then (-(i : Int) - 1, -2)
      else if st.gc ≠ st.groups then (-(i : Int) - 1, -2)
      else (st.tokens, st.groups)
  | c :: rest, i, pt, st =>
      if st.inClass then
        if c = ']' then
          if st.tig = 0 then (-(i : Int) - 1, -4)
          else countAux rest (i + 1) c { st with inClass := false, gc := st.gc + 1 }
        else
          countAux rest (i + 1) c
            { st with tokens := st.tokens + 1, tig := st.tig + 1 }
      else if c = '[' then
        countAux rest (i + 1) c
          { st with groups := st.groups + 1, inClass := true, tig := 0 }
      else if c = '(' ∨ c = '{' then
        countAux rest (i + 1) c { st with groups := st.groups + 1 }
      else if (i = 0 ∧ (c = ')' ∨ c = ']' ∨ c = '}' ∨ c = '*' ∨ c = '?' ∨ c = '|'))
          ∨ (0 < i ∧ (c = '*' ∨ c = '?')
              ∧ (pt = '*' ∨ pt = '?' ∨ pt = '(' ∨ pt = '{' ∨ pt = '|'))
          ∨ (0 < i ∧ pt = '|' ∧ (c = ')' ∨ c = ']' ∨ c = '}'))
          ∨ (c = '|' ∧ rest = []) then
        (-(i : Int) - 1, -3)
      else if c = ')' ∨ c = '}' then
        if st.gc + 1 > st.groups ∨ (c = ')' ∧ pt = '(') ∨ (c = '}' ∧ pt = '{') then
          (-(i : Int) - 1, -4)
        else countAux rest (i + 1) c { st with gc := st.gc + 1 }
      else
        countAux rest (i + 1) c { st with tokens := st.tokens + 1 }

/-- The `_count` function of the C source. -/
def countC (regex : List Char) : Int × Int :=
  countAux regex 0 nulc ⟨0, 0, 0, false, 0⟩

/-! ### `_set_jump`: layout and wiring

The C function allocates one block
`malloc((4*n_groups+n_tokens+2)*sizeof(int) + 2*n_groups*sizeof(char))`
and lays out `group_starts`, `group_nexts`, `gi_stack`, `gc_stack` (each
`n_groups` ints), one slack slot, and `redirect[-1..n_tokens]` inside it,
followed by the `s_stack` and `g_mods` char arrays.  The int region is
modelled as one flat `Array Int` with exactly these offsets, so that
accesses that stay inside the int region — including out-of-range
accesses of a logical table that land in a neighbouring table, which the
C program actually performs — are reproduced exactly.  An access outside
the int region (which in C reads or clobbers the char stacks, or runs
past the allocation) sets the sticky `oob` flag, reads `0`, and drops
the write.  `s_stack`/`g_mods` and the caller-provided
`tokens`/`jumps`/`jumpf`/`jumpi` arrays are separate allocations in C
and are modelled as separate arrays with the same flag discipline. -/

structure JumpSt where
  nT : Int
  nG : Int
  buf : Array Int
  sStack : Array Char
  gMods : Array Char
  tokens : Array Char
  jumps : Array Int
  jumpf : Array Int
  jumpi : Array Int
  oob : Bool
  deriving Repr, DecidableEq

/-- Flat-block offset of `group_starts[j]`. -/
def gsI (_G j : Int) : Int := j
/-- Flat-block offset of `group_nexts[j]`. -/
def gnI (G j : Int) : Int := G + j
/-- Flat-block offset of `gi_stack[j]`. -/
def giI (G j : Int) : Int := 2*G + j
/-- Flat-block offset of `gc_stack[j]`. -/
def gcI (G j : Int) : Int := 3*G + j
/-- Flat-block offset of `redirect[j]` (valid logical `j` is `-1..n_tokens`). -/
def rdI (G j : Int) : Int := 4*G + 1 + j

def JumpSt.bget (st : JumpSt) (idx : Int) : Int × JumpSt :=
  if inRange idx st.buf.size then (agetI st.buf idx, st)
  else (0, { st with oob := true })

def JumpSt.bset (st : JumpSt) (idx v : Int) : JumpSt :=
  if inRange idx st.buf.size then { st with buf := asetI st.buf idx v }
  else { st with oob := true }

def JumpSt.sget (st : JumpSt) (idx : Int) : Char × JumpSt :=
  if inRange idx st.sStack.size then (agetC st.sStack idx, st)
  else (nulc, { st with oob := true })

def JumpSt.sset (st : JumpSt) (idx : Int) (v : Char) : JumpSt :=
  if inRange idx st.sStack.size then { st with sStack := asetC st.sStack idx v }
  else { st with oob := true }

def JumpSt.mget (st : JumpSt) (idx : Int) : Char × JumpSt :=
  if inRange idx st.gMods.size then (agetC st.gMods idx, st)
  else (nulc, { st with oob := true })

def JumpSt.mset (st : JumpSt) (idx : Int) (v : Char) : JumpSt :=
  if inRange idx st.gMods.size then { st with gMods := asetC st.gMods idx v }
  else { st with oob := true }

def JumpSt.tset (st : JumpSt) (idx : Int) (v : Char) : JumpSt :=
  if inRange idx st.tokens.size then { st with tokens := asetC st.tokens idx v }
  else { st with oob := true }

def JumpSt.jsset (st : JumpSt) (idx v : Int) : JumpSt :=
  if inRange idx st.jumps.size then { st with jumps := asetI st.jumps idx v }
  else { st with oob := true }

def JumpSt.jfset (st : JumpSt) (idx v : Int) : JumpSt :=
  if inRange idx st.jumpf.size then { st with jumpf := asetI st.jumpf idx v }
  else { st with oob := true }

def JumpSt.jiset (st : JumpSt) (idx v : Int) : JumpSt :=
  if inRange idx st.jumpi.size then { st with jumpi := asetI st.jumpi idx v }
  else { st with oob := true }

/-- The `SET_JUMP(i, s, f)` macro: store `redirect[s]`/`redirect[f]` into
`jumps[i]`/`jumpf[i]`, swapped when the negation parity `neg` is odd. -/
def setJ (st : JumpSt) (idx s f : Int) (neg : Bool) : JumpSt :=
  let (vs, st) := st.bget (rdI st.nG s)
  let (vf, st) := st.bget (rdI st.nG f)
  if neg then (st.jsset idx vf).jfset idx vs
  else (st.jsset idx vs).jfset idx vf

/-- Pass 1 helper: `for (j = 0; j <= igc; j++) group_nexts[gc_stack[j]] = nt`. -/
def setNexts (st : JumpSt) (igc nt : Int) : JumpSt :=
  (List.range (igc + 1).toNat).foldl (fun st j =>
    let (g, st) := st.bget (gcI st.nG (j : Int))
    st.bset (gnI st.nG g) nt) st

/-- First pass of `_set_jump`: record each group's first token index and
the modifier following its closer, and initialise
`tokens`/`jumps`/`jumpf`/`jumpi` with the default wiring. -/
def pass1 : List Char → Int → Int → Int → Int → Int → Char → JumpSt → JumpSt
  | [], nt, _, _, _, igc, _, st => setNexts st igc nt
  | c :: rest, nt, ng, gi, iga, igc, cgs, st =>
    if (c = '(' ∨ c = '[' ∨ c = '{') ∧ cgs ≠ '[' then
      let gi := ng
      let iga := iga + 1
      let st := st.bset (giI st.nG iga) gi
      let st := st.sset iga c
      let st := st.bset (gsI st.nG gi) nt
      pass1 rest nt (ng + 1) gi iga igc c st
    else if 0 ≤ iga ∧ ((cgs = '(' ∧ c = ')') ∨ (cgs = '[' ∧ c = ']')
        ∨ (cgs = '{' ∧ c = '}')) then
      let igc := igc + 1
      let st := st.bset (gcI st.nG igc) gi
      let pk := rest.headD nulc
      let st := if pk = '*' ∨ pk = '?' ∨ pk = '|' then st.mset gi pk else st
      let iga := iga - 1
      if 0 ≤ iga then
        let (gi2, st) := st.bget (giI st.nG iga)
        let (cg2, st) := st.sget iga
        pass1 rest nt ng gi2 iga igc cg2 st
      else
        pass1 rest nt ng (-1) iga igc nulc st
    else
      let noSpec := cgs = '[' ∨ (c ≠ '*' ∧ c ≠ '?' ∧ c ≠ '|')
      let st := if noSpec then setNexts st igc nt else st
      let igc := if noSpec then -1 else igc
      let st := st.tset nt c
      let st := st.jsset nt (nt + 1)
      let st := st.jfset nt (-1)
      let st := st.jiset nt 0
      pass1 rest (nt + 1) ng gi iga igc cgs st

/-- Pass 2 helper: on closing a modified group, shift the recorded
`group_nexts` of the groups it contains. -/
def shiftNexts (st : JumpSt) (gi ng last : Int) : JumpSt :=
  (List.range (ng - gi).toNat).foldl (fun st k =>
    let j := gi + (k : Int)
    let (v, st) := st.bget (gnI st.nG j)
    if v < last then st.bset (gnI st.nG j) (v + 1) else st) st

/-- Second pass of `_set_jump`: write the final token characters,
hoisting group modifiers and single-token modifiers to the front.  The
`sk` flag models the extra `i++` of the C code: when a single-token
modifier is hoisted, the following pattern character has already been
consumed and the next loop iteration skips it. -/
def pass2 : List Char → Bool → Int → Int → Int → Int → Char → Int → JumpSt → JumpSt
  | [], _, _, _, _, _, _, _, st => st
  | _ :: rest, true, nt, ng, gi, iga, cgs, gx, st =>
    pass2 rest false nt ng gi iga cgs gx st
  | c :: rest, false, nt, ng, gi, iga, cgs, gx, st =>
    if (c = '(' ∨ c = '[' ∨ c = '{') ∧ cgs ≠ '[' then
      let st :=
        if 0 < gx then
          let (v, st) := st.bget (gsI st.nG ng)
          st.bset (gsI st.nG ng) (v + gx)
        else st
      let gi := ng
      let iga := iga + 1
      let st := st.bset (giI st.nG iga) gi
      let st := st.sset iga c
      let (md, st) := st.mget gi
      if md ≠ ' ' then
        let st := st.tset nt md
        pass2 rest false (nt + 1) (ng + 1) gi iga c (gx + 1) st
      else
        pass2 rest false nt (ng + 1) gi iga c gx st
    else if 0 ≤ iga ∧ ((cgs = '(' ∧ c = ')') ∨ (cgs = '[' ∧ c = ']')
        ∨ (cgs = '{' ∧ c = '}')) then
      let (md, st) := st.mget gi
      let st := if md ≠ ' ' then shiftNexts st gi ng (nt - 1) else st
      let gx := if md ≠ ' ' then gx - 1 else gx
      let iga := iga - 1
      if 0 ≤ iga then
        let (gi2, st) := st.bget (giI st.nG iga)
        let (cg2, st) := st.sget iga
        pass2 rest false nt ng gi2 iga cg2 gx st
      else
        pass2 rest false nt ng (-1) iga nulc gx st
    else if nt < st.nT then
      let nx := rest.headD nulc
      if cgs = '[' then
        pass2 rest false (nt + 1) ng gi iga cgs gx (st.tset nt c)
      else if nx = '*' ∨ nx = '?' ∨ nx = '|' then
        let st := st.tset nt nx
        let st := st.tset (nt + 2) c
        if c ≠ '*' ∧ c ≠ '?' ∧ c ≠ '|' then
          pass2 rest true (nt + 2) ng gi iga cgs gx (st.tset (nt + 1) c)
        else
          pass2 rest true (nt + 1) ng gi iga cgs gx st
      else if c ≠ '*' ∧ c ≠ '?' ∧ c ≠ '|' then
        pass2 rest false (nt + 1) ng gi iga cgs gx (st.tset nt c)
      else
        pass2 rest false nt ng gi iga cgs gx st
    else
      pass2 rest false nt ng gi iga cgs gx st

/-- Pass 3 helper: the scan
`j = gi+1; while (j < n_groups && group_starts[j] < group_nexts[gi]) j++`. -/
def scanG : Nat → JumpSt → Int → Int → Int × JumpSt
  | 0, st, j, _ => (j, st)
  | fuel + 1, st, j, gnv =>
    if j < st.nG then
      let (gs, st) := st.bget (gsI st.nG j)
      if gs < gnv then scanG fuel st (j + 1) gnv else (j, st)
    else (j, st)

/-- Third pass of `_set_jump`: fill in the success/failure/immediate
jump targets, swapping success and failure under odd negation parity.
The `sk` flag models the extra `i++` of the C code exactly as in
`pass2`. -/
def pass3 : List Char → Bool → Int → Int → Int → Int → Char → Bool → JumpSt → JumpSt
  | [], _, _, _, _, _, _, _, st => st
  | _ :: rest, true, nt, ng, gi, iga, cgs, neg, st =>
    pass3 rest false nt ng gi iga cgs neg st
  | c :: rest, false, nt, ng, gi, iga, cgs, neg, st =>
    if (c = '(' ∨ c = '[' ∨ c = '{') ∧ cgs ≠ '[' then
      let gi := ng
      let iga := iga + 1
      let st := st.bset (giI st.nG iga) gi
      let st := st.sset iga c
      let (md, st) := st.mget gi
      let (nt, st) :=
        if md ≠ ' ' then
          let (gnv, st) := st.bget (gnI st.nG gi)
          let st :=
            if neg then setJ st nt gnv (nt + 1) neg
            else setJ st nt (nt + 1) gnv neg
          let st := st.bset (rdI st.nG nt) nt
          let nt := nt + 1
          let st :=
            if md = '*' then
              st.bset (rdI st.nG gnv) (nt - 1)
            else if md = '|' then
              let (j, st) := scanG ((st.nG - gi).toNat + 1) st (gi + 1) gnv
              let (gsj, st) := st.bget (gsI st.nG j)
              if j < st.nG ∧ gsj = gnv then
                let (gnj, st) := st.bget (gnI st.nG j)
                st.bset (rdI st.nG gnv) gnj
              else
                st.bset (rdI st.nG gnv) (gnv + 1)
            else st
          (nt, st)
        else (nt, st)
      let neg := if c = '{' then ¬ neg else neg
      pass3 rest false nt (ng + 1) gi iga c neg st
    else if 0 ≤ iga ∧ ((cgs = '(' ∧ c = ')') ∨ (cgs = '[' ∧ c = ']')
        ∨ (cgs = '{' ∧ c = '}')) then
      let neg := if c = '}' then ¬ neg else neg
      let iga := iga - 1
      if 0 ≤ iga then
        let (gi2, st) := st.bget (giI st.nG iga)
        let (cg2, st) := st.sget iga
        pass3 rest false nt ng gi2 iga cg2 neg st
      else
        pass3 rest false nt ng (-1) iga nulc neg st
    else if nt < st.nT then
      let nx := rest.headD nulc
      if cgs = '[' then
        let st := st.jiset nt 1
        let st :=
          if nx = ']' then
            let st := st.jiset nt 2
            let (gnv, st) := st.bget (gnI st.nG gi)
            setJ st nt gnv (-1) neg
          else
            if neg then setJ st nt (nt + 1) (-1) neg
            else
              let (gnv, st) := st.bget (gnI st.nG gi)
              setJ st nt gnv (nt + 1) neg
        let st := st.bset (rdI st.nG nt) nt
        pass3 rest false (nt + 1) ng gi iga cgs neg st
      else if nx = '*' ∨ nx = '?' ∨ nx = '|' then
        let st := setJ st nt (nt + (if neg then 2 else 1))
                    (nt + (if neg then 1 else 2)) neg
        let st := st.bset (rdI st.nG nt) nt
        let nt := nt + 1
        let st :=
          if nx = '*' then
            setJ st nt (nt - 1) (-1) neg
          else if nx = '|' then
            let nxnx := (rest.drop 1).headD nulc
            if nxnx = '(' ∨ nxnx = '[' ∨ nxnx = '{' then
              let (gnv, st) := st.bget (gnI st.nG (ng + 1))
              setJ st nt gnv (-1) neg
            else
              setJ st nt (nt + 2) (-1) neg
          else
            setJ st nt (nt + 1) (-1) neg
        let st := st.bset (rdI st.nG nt) nt
        let nt := if c ≠ '*' ∧ c ≠ '?' ∧ c ≠ '|' then nt + 1 else nt
        pass3 rest true nt ng gi iga cgs neg st
      else
        let st := setJ st nt (nt + 1) (-1) neg
        let st := st.bset (rdI st.nG nt) nt
        let nt := if c ≠ '*' ∧ c ≠ '?' ∧ c ≠ '|' then nt + 1 else nt
        pass3 rest false nt ng gi iga cgs neg st
    else
      pass3 rest false nt ng gi iga cgs neg st

/-- The initial table state of `_set_jump`: the freshly allocated arrays
and the initialisation loops of the C code.  The first loop runs
`redirect[j] = j` for every `j < n_groups` — when `n_groups > n_tokens+1`
this writes beyond the redirect table (and, in C, beyond the int block,
into or past the char stacks), which sets the `oob` flag here. -/
def setJumpInit (T G : Int) : JumpSt :=
  let size := (4*G + T + 2).toNat
  let st : JumpSt :=
    { nT := T, nG := G
      buf := Array.mkArray size 0
      sStack := Array.mkArray G.toNat ' '
      gMods := Array.mkArray G.toNat ' '
      tokens := Array.mkArray (T.toNat + 1) nulc
      jumps := Array.mkArray T.toNat 0
      jumpf := Array.mkArray T.toNat 0
      jumpi := Array.mkArray T.toNat 0
      oob := false }
  let st := (List.range G.toNat).foldl (fun st k =>
    let j : Int := (k : Int)
    let st := st.bset (gsI G j) (-1)
    let st := st.bset (gnI G j) (-1)
    let st := st.bset (giI G j) (-1)
    let st := st.bset (gcI G j) (-1)
    st.bset (rdI G j) j) st
  let st := (List.range (T + 1 - G).toNat).foldl (fun st k =>
    let j : Int := G + (k : Int)
    st.bset (rdI G j) j) st
  st.bset (rdI G (-1)) (-1)

/-- The `_set_jump` function of the C source: allocate and initialise the
tables, then run the three passes. -/
def setJumpC (regex : List Char) (T G : Int) : JumpSt :=
  pass3 regex false 0 0 (-1) (-1) nulc false
    (pass2 regex false 0 0 (-1) (-1) nulc 0
      (pass1 regex 0 0 (-1) (-1) (-1) nulc (setJumpInit T G)))

/-! ### `match`: the two-stack simulator

The compiled program is four parallel arrays plus the token count.  The
simulator state holds the two stacks (`List Int`, head = top, matching
the C LIFO array stacks), the two membership-flag arrays, the per-token
`active` origin array of size `T+1`, and the input position `i`.  The
current character is `string[i]`, NUL at or past the end.  One
`simStep` performs either one pop of the current stack (the body of the
C inner `while`) or, when the current stack is empty, the
swap/break/advance sequence between input positions.  The C drain loop
can run forever, so the driver `simLoop` is fuel-indexed and returns
`none` on fuel exhaustion. -/

structure Prog where
  T : Int
  tokens : Array Char
  jumps : Array Int
  jumpf : Array Int
  jumpi : Array Int
  deriving Repr, DecidableEq

structure Sim where
  cst : List Int
  nst : List Int
  incs : Array Bool
  inns : Array Bool
  active : Array Int
  i : Nat
  deriving Repr, DecidableEq

/-- Result of the `STACK_NEXT_TOKEN` macro: possibly an accept result,
and the updated stack, membership flags and `active` array. -/
structure PushRes where
  res : Option (Int × Int)
  stk : List Int
  flags : Array Bool
  active : Array Int
  deriving Repr, DecidableEq

/-- The `STACK_NEXT_TOKEN(stack, si, in_stack)` macro.  `endInc` is the
value of `jumpi[j] || ct != '*'` of the popped instruction `j`, which
decides whether the reported end is `i` or `i+1` on accept. -/
def stackTok (T : Int) (stk : List Int) (flags : Array Bool)
    (active : Array Int) (dest val : Int) (i : Nat) (endInc : Bool) : PushRes :=
  if 0 ≤ dest ∧ agetI active dest ≤ val then
    if dest = T then
      ⟨some (val, (i : Int) + (if endInc then 1 else 0)),
        if agetB flags dest = false then dest :: stk else stk, flags, active⟩
    else
      ⟨none, if agetB flags dest = false then dest :: stk else stk,
        asetB flags dest true, asetI active dest val⟩
  else
    ⟨none, stk, flags, active⟩

inductive StepRes where
  | ret (r : Int × Int) : StepRes
  | next (sm : Sim) : StepRes
  deriving Repr, DecidableEq

/-- One step of the simulator: a single pop of the current stack, or the
stack swap / end-of-string break / position advance when the current
stack is empty. -/
def simStep (p : Prog) (S : List Char) (sm : Sim) : StepRes :=
  let c := charAt S sm.i
  match sm.cst with
  | j :: rest =>
    let incs1 := asetB sm.incs j false
    let ct := agetC p.tokens j
    let ji := agetI p.jumpi j
    let val := agetI sm.active j
    let endInc := ji ≠ 0 ∨ ct ≠ '*'
    if ct = '*' ∧ ji = 0 then
      let val := if j = 0 then (sm.i : Int) else val
      let r1 := stackTok p.T rest incs1 sm.active (agetI p.jumps j) val sm.i endInc
      match r1.res with
      | some r => .ret r
      | none =>
        let r2 := stackTok p.T r1.stk r1.flags r1.active (agetI p.jumpf j) val sm.i endInc
        match r2.res with
        | some r => .ret r
        | none => .next { sm with cst := r2.stk, incs := r2.flags, active := r2.active }
    else if c = ct ∨ (ct = '.' ∧ ji = 0 ∧ c ≠ nulc) then
      let r1 := stackTok p.T sm.nst sm.inns sm.active (agetI p.jumps j) val sm.i endInc
      match r1.res with
      | some r => .ret r
      | none => .next { sm with cst := rest, incs := incs1, nst := r1.stk, inns := r1.flags, active := r1.active }
    else
      if ji = 1 then
        let r1 := stackTok p.T rest incs1 sm.active (agetI p.jumpf j) val sm.i endInc
        match r1.res with
        | some r => .ret r
        | none => .next { sm with cst := r1.stk, incs := r1.flags, active := r1.active }
      else
        let r1 := stackTok p.T sm.nst sm.inns sm.active (agetI p.jumpf j) val sm.i endInc
        match r1.res with
        | some r => .ret r
        | none => .next { sm with cst := rest, incs := incs1, nst := r1.stk, inns := r1.flags, active := r1.active }
  | [] =>
    if c = nulc then .ret (-1, 0)
    else
      let cst := sm.nst
      if cst = [] then .ret (-1, 0)
      else .next { cst := cst, nst := [], incs := sm.inns, inns := sm.incs, active := sm.active, i := sm.i + 1 }

/-- Fuel-indexed driver of `simStep`. -/
def simLoop (p : Prog) (S : List Char) : Nat → Sim → Option (Int × Int)
  | 0, _ => none
  | fuel + 1, sm =>
    match simStep p S sm with
    | .ret r => some r
    | .next sm2 => simLoop p S fuel sm2

/-- Build the runtime program from the compiler output: the pre-loop of
`match` rewrites every `?` and `|` token that is not a class interior
(`jumpi ≠ 1`) into `*`. -/
def mkProg (js : JumpSt) : Prog :=
  let T := js.nT.toNat
  let tokens := (List.range T).foldl (fun a k =>
    if agetI js.jumpi (k : Int) ≠ 1
        ∧ (agetC a (k : Int) = '?' ∨ agetC a (k : Int) = '|') then
      asetC a (k : Int) '*'
    else a) js.tokens
  ⟨js.nT, tokens, js.jumps, js.jumpf, js.jumpi⟩

/-- The initial simulator state: instruction 0 live on the current stack
with origin 0, everything else inactive. -/
def initSim (T : Nat) : Sim :=
  { cst := [0], nst := []
    incs := asetB (Array.mkArray T false) 0 true
    inns := Array.mkArray T false
    active := asetI (Array.mkArray (T + 1) (-1)) 0 0
    i := 0 }

/-- Run a compiled program on an input from the initial state. -/
def runProg (p : Prog) (S : List Char) (fuel : Nat) : Option (Int × Int) :=
  simLoop p S fuel (initSim p.T.toNat)

/-- The `match` function of the C source.  `none` means the fuel ran out
(the C program is still looping). -/
def matchC (fuel : Nat) (regex S : List Char) : Option (Int × Int) :=
  if charAt S 0 = nulc then some (-1, -5)
  else
    let tg := countC regex
    if tg.1 ≤ 0 then
      if tg.1 = 0 then some (-1, -1) else some (tg.1, tg.2)
    else
      runProg (mkProg (setJumpC regex tg.1 tg.2)) S fuel

/-! ### Concrete compiled programs

The compiler's intermediate table states for the concrete patterns used
by the claims below, staged pass by pass (each equality is checked by
evaluation; staging keeps each evaluation small). -/

/-- Compiler table states for one concrete pattern, after each pass. -/
def sjA0 : JumpSt := { nT := 5, nG := 0, buf := #[-1, 0, 1, 2, 3, 4, 5], sStack := #[], gMods := #[], tokens := #['\x00', '\x00', '\x00', '\x00', '\x00', '\x00'], jumps := #[0, 0, 0, 0, 0], jumpf := #[0, 0, 0, 0, 0], jumpi := #[0, 0, 0, 0, 0], oob := false }
def sjA1 : JumpSt := { nT := 5, nG := 0, buf := #[-1, 0, 1, 2, 3, 4, 5], sStack := #[], gMods := #[], tokens := #['.', '*', 'a', 'b', 'c', '\x00'], jumps := #[1, 2, 3, 4, 5], jumpf := #[-1, -1, -1, -1, -1], jumpi := #[0, 0, 0, 0, 0], oob := false }
def sjA2 : JumpSt := { nT := 5, nG := 0, buf := #[-1, 0, 1, 2, 3, 4, 5], sStack := #[], gMods := #[], tokens := #['*', '.', 'a', 'b', 'c', '\x00'], jumps := #[1, 2, 3, 4, 5], jumpf := #[-1, -1, -1, -1, -1], jumpi := #[0, 0, 0, 0, 0], oob := false }
def sjA3 : JumpSt := { nT := 5, nG := 0, buf := #[-1, 0, 1, 2, 3, 4, 5], sStack := #[], gMods := #[], tokens := #['*', '.', 'a', 'b', 'c', '\x00'], jumps := #[1, 0, 3, 4, 5], jumpf := #[2, -1, -1, -1, -1], jumpi := #[0, 0, 0, 0, 0], oob := false }
def progA : Prog := { T := 5, tokens := #['*', '.', 'a', 'b', 'c', '\x00'], jumps := #[1, 0, 3, 4, 5], jumpf := #[2, -1, -1, -1, -1], jumpi := #[0, 0, 0, 0, 0] }
theorem sjA0eq : setJumpInit 5 0 = sjA0 := by decide
theorem sjA1eq : pass1 (".*abc".toList) 0 0 (-1) (-1) (-1) nulc sjA0 = sjA1 := by decide
theorem sjA2eq : pass2 (".*abc".toList) false 0 0 (-1) (-1) nulc 0 sjA1 = sjA2 := by decide
theorem sjA3eq : pass3 (".*abc".toList) false 0 0 (-1) (-1) nulc false sjA2 = sjA3 := by decide
theorem sjAeq : setJumpC (".*abc".toList) 5 0 = sjA3 := by
  rw [setJumpC, sjA0eq, sjA1eq, sjA2eq, sjA3eq]
theorem progAeq : mkProg sjA3 = progA := by decide

/-- Compiler table states for one concrete pattern, after each pass. -/
def sjB0 : JumpSt := { nT := 2, nG := 0, buf := #[-1, 0, 1, 2], sStack := #[], gMods := #[], tokens := #['\x00', '\x00', '\x00'], jumps := #[0, 0], jumpf := #[0, 0], jumpi := #[0, 0], oob := false }
def sjB1 : JumpSt := { nT := 2, nG := 0, buf := #[-1, 0, 1, 2], sStack := #[], gMods := #[], tokens := #['.', '*', '\x00'], jumps := #[1, 2], jumpf := #[-1, -1], jumpi := #[0, 0], oob := false }
def sjB2 : JumpSt := { nT := 2, nG := 0, buf := #[-1, 0, 1, 2], sStack := #[], gMods := #[], tokens := #['*', '.', '.'], jumps := #[1, 2], jumpf := #[-1, -1], jumpi := #[0, 0], oob := false }
def sjB3 : JumpSt := { nT := 2, nG := 0, buf := #[-1, 0, 1, 2], sStack := #[], gMods := #[], tokens := #['*', '.', '.'], jumps := #[1, 0], jumpf := #[2, -1], jumpi := #[0, 0], oob := false }
def progB : Prog := { T := 2, tokens := #['*', '.', '.'], jumps := #[1, 0], jumpf := #[2, -1], jumpi := #[0, 0] }
theorem sjB0eq : setJumpInit 2 0 = sjB0 := by decide
theorem sjB1eq : pass1 (".*".toList) 0 0 (-1) (-1) (-1) nulc sjB0 = sjB1 := by decide
theorem sjB2eq : pass2 (".*".toList) false 0 0 (-1) (-1) nulc 0 sjB1 = sjB2 := by decide
theorem sjB3eq : pass3 (".*".toList) false 0 0 (-1) (-1) nulc false sjB2 = sjB3 := by decide
theorem sjBeq : setJumpC (".*".toList) 2 0 = sjB3 := by
  rw [setJumpC, sjB0eq, sjB1eq, sjB2eq, sjB3eq]
theorem progBeq : mkProg sjB3 = progB := by decide

/-- Compiler table states for one concrete pattern, after each pass. -/
def sjC0 : JumpSt := { nT := 6, nG := 1, buf := #[-1, -1, -1, -1, -1, 0, 1, 2, 3, 4, 5, 6], sStack := #[' '], gMods := #[' '], tokens := #['\x00', '\x00', '\x00', '\x00', '\x00', '\x00', '\x00'], jumps := #[0, 0, 0, 0, 0, 0], jumpf := #[0, 0, 0, 0, 0, 0], jumpi := #[0, 0, 0, 0, 0, 0], oob := false }
def sjC1 : JumpSt := { nT := 6, nG := 1, buf := #[5, 6, 0, 0, -1, 0, 1, 2, 3, 4, 5, 6], sStack := #['{'], gMods := #[' '], tokens := #['.', '*', 'e', 'n', 'd', '.', '\x00'], jumps := #[1, 2, 3, 4, 5, 6], jumpf := #[-1, -1, -1, -1, -1, -1], jumpi := #[0, 0, 0, 0, 0, 0], oob := false }
def sjC2 : JumpSt := { nT := 6, nG := 1, buf := #[5, 6, 0, 0, -1, 0, 1, 2, 3, 4, 5, 6], sStack := #['{'], gMods := #[' '], tokens := #['*', '.', 'e', 'n', 'd', '.', '\x00'], jumps := #[1, 2, 3, 4, 5, 6], jumpf := #[-1, -1, -1, -1, -1, -1], jumpi := #[0, 0, 0, 0, 0, 0], oob := false }
def sjC3 : JumpSt := { nT := 6, nG := 1, buf := #[5, 6, 0, 0, -1, 0, 1, 2, 3, 4, 5, 6], sStack := #['{'], gMods := #[' '], tokens := #['*', '.', 'e', 'n', 'd', '.', '\x00'], jumps := #[1, 0, 3, 4, 5, -1], jumpf := #[2, -1, -1, -1, -1, 6], jumpi := #[0, 0, 0, 0, 0, 0], oob := false }
def progC : Prog := { T := 6, tokens := #['*', '.', 'e', 'n', 'd', '.', '\x00'], jumps := #[1, 0, 3, 4, 5, -1], jumpf := #[2, -1, -1, -1, -1, 6], jumpi := #[0, 0, 0, 0, 0, 0] }
theorem sjC0eq : setJumpInit 6 1 = sjC0 := by decide
theorem sjC1eq : pass1 (".*end{.}".toList) 0 0 (-1) (-1) (-1) nulc sjC0 = sjC1 := by decide
theorem sjC2eq : pass2 (".*end{.}".toList) false 0 0 (-1) (-1) nulc 0 sjC1 = sjC2 := by decide
theorem sjC3eq : pass3 (".*end{.}".toList) false 0 0 (-1) (-1) nulc false sjC2 = sjC3 := by decide
theorem sjCeq : setJumpC (".*end{.}".toList) 6 1 = sjC3 := by
  rw [setJumpC, sjC0eq, sjC1eq, sjC2eq, sjC3eq]
theorem progCeq : mkProg sjC3 = progC := by decide

/-- Compiler table states for one concrete pattern, after each pass. -/
def sjD0 : JumpSt := { nT := 5, nG := 3, buf := #[-1, -1, -1, -1, -1, -1, -1, -1, -1, -1, -1, -1, -1, 0, 1, 2, 3, 4, 5], sStack := #[' ', ' ', ' '], gMods := #[' ', ' ', ' '], tokens := #['\x00', '\x00', '\x00', '\x00', '\x00', '\x00'], jumps := #[0, 0, 0, 0, 0], jumpf := #[0, 0, 0, 0, 0], jumpi := #[0, 0, 0, 0, 0], oob := false }
def sjD1 : JumpSt := { nT := 5, nG := 3, buf := #[0, 1, 3, 1, 4, 4, 1, 2, -1, 2, 1, -1, -1, 0, 1, 2, 3, 4, 5], sStack := #['(', '(', ' '], gMods := #[' ', ' ', ' '], tokens := #['x', 'a', '|', 'b', 'c', '\x00'], jumps := #[1, 2, 3, 4, 5], jumpf := #[-1, -1, -1, -1, -1], jumpi := #[0, 0, 0, 0, 0], oob := false }
def sjD2 : JumpSt := { nT := 5, nG := 3, buf := #[0, 1, 3, 1, 4, 4, 1, 2, -1, 2, 1, -1, -1, 0, 1, 2, 3, 4, 5], sStack := #['(', '(', ' '], gMods := #[' ', ' ', ' '], tokens := #['x', '|', 'a', 'b', 'c', '\x00'], jumps := #[1, 2, 3, 4, 5], jumpf := #[-1, -1, -1, -1, -1], jumpi := #[0, 0, 0, 0, 0], oob := false }
def sjD3 : JumpSt := { nT := 5, nG := 3, buf := #[0, 1, 3, 1, 4, 4, 1, 2, -1, 2, 1, -1, -1, 0, 1, 2, 3, 4, 5], sStack := #['(', '(', ' '], gMods := #[' ', ' ', ' '], tokens := #['x', '|', 'a', 'b', 'c', '\x00'], jumps := #[1, 2, 1, 4, 5], jumpf := #[-1, 3, -1, -1, -1], jumpi := #[0, 0, 0, 0, 0], oob := false }
def progD : Prog := { T := 5, tokens := #['x', '*', 'a', 'b', 'c', '\x00'], jumps := #[1, 2, 1, 4, 5], jumpf := #[-1, 3, -1, -1, -1], jumpi := #[0, 0, 0, 0, 0] }
theorem sjD0eq : setJumpInit 5 3 = sjD0 := by decide
theorem sjD1eq : pass1 ("(x)(a|(b))c".toList) 0 0 (-1) (-1) (-1) nulc sjD0 = sjD1 := by decide
theorem sjD2eq : pass2 ("(x)(a|(b))c".toList) false 0 0 (-1) (-1) nulc 0 sjD1 = sjD2 := by decide
theorem sjD3eq : pass3 ("(x)(a|(b))c".toList) false 0 0 (-1) (-1) nulc false sjD2 = sjD3 := by decide
theorem sjDeq : setJumpC ("(x)(a|(b))c".toList) 5 3 = sjD3 := by
  rw [setJumpC, sjD0eq, sjD1eq, sjD2eq, sjD3eq]
theorem progDeq : mkProg sjD3 = progD := by decide

/-- Compiler table states for one concrete pattern, after each pass. -/
def sjE0 : JumpSt := { nT := 5, nG := 5, buf := #[-1, -1, -1, -1, -1, -1, -1, -1, -1, -1, -1, -1, -1, -1, -1, -1, -1, -1, -1, -1, -1, 0, 1, 2, 3, 4, 5], sStack := #[' ', ' ', ' ', ' ', ' '], gMods := #[' ', ' ', ' ', ' ', ' '], tokens := #['\x00', '\x00', '\x00', '\x00', '\x00', '\x00'], jumps := #[0, 0, 0, 0, 0], jumpf := #[0, 0, 0, 0, 0], jumpi := #[0, 0, 0, 0, 0], oob := false }
def sjE1 : JumpSt := { nT := 5, nG := 5, buf := #[0, 0, 0, 1, 3, 5, 5, 1, 4, 4, 0, 1, 3, 4, -1, 1, 0, -1, -1, -1, -1, 0, 1, 2, 3, 4, 5], sStack := #['{', '{', '(', '(', ' '], gMods := #[' ', ' ', ' ', ' ', ' '], tokens := #['x', 'a', '|', 'b', 'c', '\x00'], jumps := #[1, 2, 3, 4, 5], jumpf := #[-1, -1, -1, -1, -1], jumpi := #[0, 0, 0, 0, 0], oob := false }
def sjE2 : JumpSt := { nT := 5, nG := 5, buf := #[0, 0, 0, 1, 3, 5, 5, 1, 4, 4, 0, 1, 3, 4, -1, 1, 0, -1, -1, -1, -1, 0, 1, 2, 3, 4, 5], sStack := #['{', '{', '(', '(', ' '], gMods := #[' ', ' ', ' ', ' ', ' '], tokens := #['x', '|', 'a', 'b', 'c', '\x00'], jumps := #[1, 2, 3, 4, 5], jumpf := #[-1, -1, -1, -1, -1], jumpi := #[0, 0, 0, 0, 0], oob := false }
def sjE3 : JumpSt := { nT := 5, nG := 5, buf := #[0, 0, 0, 1, 3, 5, 5, 1, 4, 4, 0, 1, 3, 4, -1, 1, 0, -1, -1, -1, -1, 0, 1, 2, 3, 4, 5], sStack := #['{', '{', '(', '(', ' '], gMods := #[' ', ' ', ' ', ' ', ' '], tokens := #['x', '|', 'a', 'b', 'c', '\x00'], jumps := #[1, 2, 0, 4, 5], jumpf := #[-1, 3, -1, -1, -1], jumpi := #[0, 0, 0, 0, 0], oob := false }
def progE : Prog := { T := 5, tokens := #['x', '*', 'a', 'b', 'c', '\x00'], jumps := #[1, 2, 0, 4, 5], jumpf := #[-1, 3, -1, -1, -1], jumpi := #[0, 0, 0, 0, 0] }
theorem sjE0eq : setJumpInit 5 5 = sjE0 := by decide
theorem sjE1eq : pass1 ("{{(x)(a|(b))c}}".toList) 0 0 (-1) (-1) (-1) nulc sjE0 = sjE1 := by decide
theorem sjE2eq : pass2 ("{{(x)(a|(b))c}}".toList) false 0 0 (-1) (-1) nulc 0 sjE1 = sjE2 := by decide
theorem sjE3eq : pass3 ("{{(x)(a|(b))c}}".toList) false 0 0 (-1) (-1) nulc false sjE2 = sjE3 := by decide
theorem sjEeq : setJumpC ("{{(x)(a|(b))c}}".toList) 5 5 = sjE3 := by
  rw [setJumpC, sjE0eq, sjE1eq, sjE2eq, sjE3eq]
theorem progEeq : mkProg sjE3 = progE := by decide

/-- Compiler table states for one concrete pattern, after each pass. -/
def sjF0 : JumpSt := { nT := 1, nG := 4, buf := #[-1, -1, -1, -1, -1, -1, -1, -1, -1, -1, -1, -1, -1, -1, -1, -1, -1, 0, 1], sStack := #[' ', ' ', ' ', ' '], gMods := #[' ', ' ', ' ', ' '], tokens := #['\x00', '\x00'], jumps := #[0], jumpf := #[0], jumpi := #[0], oob := true }
def sjF1 : JumpSt := { nT := 1, nG := 4, buf := #[0, 0, 0, 0, 1, 1, 1, 1, 0, 1, 2, 3, 3, 2, 1, 0, -1, 0, 1], sStack := #['(', '(', '(', '('], gMods := #[' ', ' ', ' ', ' '], tokens := #['a', '\x00'], jumps := #[1], jumpf := #[-1], jumpi := #[0], oob := true }
def sjF2 : JumpSt := { nT := 1, nG := 4, buf := #[0, 0, 0, 0, 1, 1, 1, 1, 0, 1, 2, 3, 3, 2, 1, 0, -1, 0, 1], sStack := #['(', '(', '(', '('], gMods := #[' ', ' ', ' ', ' '], tokens := #['a', '\x00'], jumps := #[1], jumpf := #[-1], jumpi := #[0], oob := true }
def sjF3 : JumpSt := { nT := 1, nG := 4, buf := #[0, 0, 0, 0, 1, 1, 1, 1, 0, 1, 2, 3, 3, 2, 1, 0, -1, 0, 1], sStack := #['(', '(', '(', '('], gMods := #[' ', ' ', ' ', ' '], tokens := #['a', '\x00'], jumps := #[1], jumpf := #[-1], jumpi := #[0], oob := true }
def progF : Prog := { T := 1, tokens := #['a', '\x00'], jumps := #[1], jumpf := #[-1], jumpi := #[0] }
theorem sjF0eq : setJumpInit 1 4 = sjF0 := by decide
theorem sjF1eq : pass1 ("((((a))))".toList) 0 0 (-1) (-1) (-1) nulc sjF0 = sjF1 := by decide
theorem sjF2eq : pass2 ("((((a))))".toList) false 0 0 (-1) (-1) nulc 0 sjF1 = sjF2 := by decide
theorem sjF3eq : pass3 ("((((a))))".toList) false 0 0 (-1) (-1) nulc false sjF2 = sjF3 := by decide
theorem sjFeq : setJumpC ("((((a))))".toList) 1 4 = sjF3 := by
  rw [setJumpC, sjF0eq, sjF1eq, sjF2eq, sjF3eq]
theorem progFeq : mkProg sjF3 = progF := by decide

/-- Compiler table states for one concrete pattern, after each pass. -/
def sjG0 : JumpSt := { nT := 6, nG := 13, buf := #[-1, -1, -1, -1, -1, -1, -1, -1, -1, -1, -1, -1, -1, -1, -1, -1, -1, -1, -1, -1, -1, -1, -1, -1, -1, -1, -1, -1, -1, -1, -1, -1, -1, -1, -1, -1, -1, -1, -1, -1, -1, -1, -1, -1, -1, -1, -1, -1, -1, -1, -1, -1, -1, 0, 1, 2, 3, 4, 5, 6], sStack := #[' ', ' ', ' ', ' ', ' ', ' ', ' ', ' ', ' ', ' ', ' ', ' ', ' '], gMods := #[' ', ' ', ' ', ' ', ' ', ' ', ' ', ' ', ' ', ' ', ' ', ' ', ' '], tokens := #['\x00', '\x00', '\x00', '\x00', '\x00', '\x00', '\x00'], jumps := #[0, 0, 0, 0, 0, 0], jumpf := #[0, 0, 0, 0, 0, 0], jumpi := #[0, 0, 0, 0, 0, 0], oob := true }
def sjG1 : JumpSt := { nT := 6, nG := 13, buf := #[0, 0, 0, 0, 1, 1, 1, 1, 2, 2, 2, 2, 5, 1, 1, 1, 1, 2, 2, 2, 2, 3, 3, 3, 3, 6, 12, 9, 10, 11, -1, -1, -1, -1, -1, -1, -1, -1, -1, 12, 10, 9, 8, -1, -1, -1, -1, -1, -1, -1, -1, -1, -1, 0, 1, 2, 3, 4, 5, 6], sStack := #['(', '(', '(', '(', ' ', ' ', ' ', ' ', ' ', ' ', ' ', ' ', ' '], gMods := #[' ', ' ', ' ', ' ', ' ', ' ', ' ', ' ', ' ', ' ', ' ', ' ', ' '], tokens := #['x', 'y', 'z', 'a', '|', 'w', '\x00'], jumps := #[1, 2, 3, 4, 5, 6], jumpf := #[-1, -1, -1, -1, -1, -1], jumpi := #[0, 0, 0, 0, 0, 0], oob := true }
def sjG2 : JumpSt := { nT := 6, nG := 13, buf := #[0, 0, 0, 0, 1, 1, 1, 1, 2, 2, 2, 2, 5, 1, 1, 1, 1, 2, 2, 2, 2, 3, 3, 3, 3, 6, 12, 9, 10, 11, -1, -1, -1, -1, -1, -1, -1, -1, -1, 12, 10, 9, 8, -1, -1, -1, -1, -1, -1, -1, -1, -1, -1, 0, 1, 2, 3, 4, 5, 6], sStack := #['(', '(', '(', '(', ' ', ' ', ' ', ' ', ' ', ' ', ' ', ' ', ' '], gMods := #[' ', ' ', ' ', ' ', ' ', ' ', ' ', ' ', ' ', ' ', ' ', ' ', ' '], tokens := #['x', 'y', 'z', '|', 'a', 'w', '\x00'], jumps := #[1, 2, 3, 4, 5, 6], jumpf := #[-1, -1, -1, -1, -1, -1], jumpi := #[0, 0, 0, 0, 0, 0], oob := true }
def sjG3 : JumpSt := { nT := 6, nG := 13, buf := #[0, 0, 0, 0, 1, 1, 1, 1, 2, 2, 2, 2, 5, 1, 1, 1, 1, 2, 2, 2, 2, 3, 3, 3, 3, 6, 12, 9, 10, 11, -1, -1, -1, -1, -1, -1, -1, -1, -1, 12, 10, 9, 8, -1, -1, -1, -1, -1, -1, -1, -1, -1, -1, 0, 1, 2, 3, 4, 5, 6], sStack := #['(', '(', '(', '(', ' ', ' ', ' ', ' ', ' ', ' ', ' ', ' ', ' '], gMods := #[' ', ' ', ' ', ' ', ' ', ' ', ' ', ' ', ' ', ' ', ' ', ' ', ' '], tokens := #['x', 'y', 'z', '|', 'a', 'w', '\x00'], jumps := #[1, 2, 3, 4, 0, 6], jumpf := #[-1, -1, -1, 5, -1, -1], jumpi := #[0, 0, 0, 0, 0, 0], oob := true }
def progG : Prog := { T := 6, tokens := #['x', 'y', 'z', '*', 'a', 'w', '\x00'], jumps := #[1, 2, 3, 4, 0, 6], jumpf := #[-1, -1, -1, 5, -1, -1], jumpi := #[0, 0, 0, 0, 0, 0] }
theorem sjG0eq : setJumpInit 6 13 = sjG0 := by decide
theorem sjG1eq : pass1 ("((((x))))((((y))))((((z))))a|(w)".toList) 0 0 (-1) (-1) (-1) nulc sjG0 = sjG1 := by decide
theorem sjG2eq : pass2 ("((((x))))((((y))))((((z))))a|(w)".toList) false 0 0 (-1) (-1) nulc 0 sjG1 = sjG2 := by decide
theorem sjG3eq : pass3 ("((((x))))((((y))))((((z))))a|(w)".toList) false 0 0 (-1) (-1) nulc false sjG2 = sjG3 := by decide
theorem sjGeq : setJumpC ("((((x))))((((y))))((((z))))a|(w)".toList) 6 13 = sjG3 := by
  rw [setJumpC, sjG0eq, sjG1eq, sjG2eq, sjG3eq]
theorem progGeq : mkProg sjG3 = progG := by decide

/-- Compiler table states for one concrete pattern, after each pass. -/
def sjH0 : JumpSt := { nT := 4, nG := 1, buf := #[-1, -1, -1, -1, -1, 0, 1, 2, 3, 4], sStack := #[' '], gMods := #[' '], tokens := #['\x00', '\x00', '\x00', '\x00', '\x00'], jumps := #[0, 0, 0, 0], jumpf := #[0, 0, 0, 0], jumpi := #[0, 0, 0, 0], oob := false }
def sjH1 : JumpSt := { nT := 4, nG := 1, buf := #[0, 3, 0, 0, -1, 0, 1, 2, 3, 4], sStack := #['('], gMods := #['*'], tokens := #['a', '*', '*', 'b', '\x00'], jumps := #[1, 2, 3, 4], jumpf := #[-1, -1, -1, -1], jumpi := #[0, 0, 0, 0], oob := false }
def sjH2 : JumpSt := { nT := 4, nG := 1, buf := #[0, 3, 0, 0, -1, 0, 1, 2, 3, 4], sStack := #['('], gMods := #['*'], tokens := #['*', '*', 'a', 'b', '\x00'], jumps := #[1, 2, 3, 4], jumpf := #[-1, -1, -1, -1], jumpi := #[0, 0, 0, 0], oob := false }
def sjH3 : JumpSt := { nT := 4, nG := 1, buf := #[0, 3, 0, 0, -1, 0, 1, 2, 3, 4], sStack := #['('], gMods := #['*'], tokens := #['*', '*', 'a', 'b', '\x00'], jumps := #[1, 2, 1, 4], jumpf := #[3, 0, -1, -1], jumpi := #[0, 0, 0, 0], oob := false }
def progH : Prog := { T := 4, tokens := #['*', '*', 'a', 'b', '\x00'], jumps := #[1, 2, 1, 4], jumpf := #[3, 0, -1, -1], jumpi := #[0, 0, 0, 0] }
theorem sjH0eq : setJumpInit 4 1 = sjH0 := by decide
theorem sjH1eq : pass1 ("(a*)*b".toList) 0 0 (-1) (-1) (-1) nulc sjH0 = sjH1 := by decide
theorem sjH2eq : pass2 ("(a*)*b".toList) false 0 0 (-1) (-1) nulc 0 sjH1 = sjH2 := by decide
theorem sjH3eq : pass3 ("(a*)*b".toList) false 0 0 (-1) (-1) nulc false sjH2 = sjH3 := by decide
theorem sjHeq : setJumpC ("(a*)*b".toList) 4 1 = sjH3 := by
  rw [setJumpC, sjH0eq, sjH1eq, sjH2eq, sjH3eq]
theorem progHeq : mkProg sjH3 = progH := by decide

/-- Compiler table states for one concrete pattern, after each pass. -/
def sjI0 : JumpSt := { nT := 3, nG := 0, buf := #[-1, 0, 1, 2, 3], sStack := #[], gMods := #[], tokens := #['\x00', '\x00', '\x00', '\x00'], jumps := #[0, 0, 0], jumpf := #[0, 0, 0], jumpi := #[0, 0, 0], oob := false }
def sjI1 : JumpSt := { nT := 3, nG := 0, buf := #[-1, 0, 1, 2, 3], sStack := #[], gMods := #[], tokens := #['a', ']', 'c', '\x00'], jumps := #[1, 2, 3], jumpf := #[-1, -1, -1], jumpi := #[0, 0, 0], oob := false }
def sjI2 : JumpSt := { nT := 3, nG := 0, buf := #[-1, 0, 1, 2, 3], sStack := #[], gMods := #[], tokens := #['a', ']', 'c', '\x00'], jumps := #[1, 2, 3], jumpf := #[-1, -1, -1], jumpi := #[0, 0, 0], oob := false }
def sjI3 : JumpSt := { nT := 3, nG := 0, buf := #[-1, 0, 1, 2, 3], sStack := #[], gMods := #[], tokens := #['a', ']', 'c', '\x00'], jumps := #[1, 2, 3], jumpf := #[-1, -1, -1], jumpi := #[0, 0, 0], oob := false }
def progI : Prog := { T := 3, tokens := #['a', ']', 'c', '\x00'], jumps := #[1, 2, 3], jumpf := #[-1, -1, -1], jumpi := #[0, 0, 0] }
theorem sjI0eq : setJumpInit 3 0 = sjI0 := by decide
theorem sjI1eq : pass1 ("a]c".toList) 0 0 (-1) (-1) (-1) nulc sjI0 = sjI1 := by decide
theorem sjI2eq : pass2 ("a]c".toList) false 0 0 (-1) (-1) nulc 0 sjI1 = sjI2 := by decide
theorem sjI3eq : pass3 ("a]c".toList) false 0 0 (-1) (-1) nulc false sjI2 = sjI3 := by decide
theorem sjIeq : setJumpC ("a]c".toList) 3 0 = sjI3 := by
  rw [setJumpC, sjI0eq, sjI1eq, sjI2eq, sjI3eq]
theorem progIeq : mkProg sjI3 = progI := by decide

/-- Compiler table states for one concrete pattern, after each pass. -/
def sjJ0 : JumpSt := { nT := 3, nG := 0, buf := #[-1, 0, 1, 2, 3], sStack := #[], gMods := #[], tokens := #['\x00', '\x00', '\x00', '\x00'], jumps := #[0, 0, 0], jumpf := #[0, 0, 0], jumpi := #[0, 0, 0], oob := false }
def sjJ1 : JumpSt := { nT := 3, nG := 0, buf := #[-1, 0, 1, 2, 3], sStack := #[], gMods := #[], tokens := #['a', 'b', 'c', '\x00'], jumps := #[1, 2, 3], jumpf := #[-1, -1, -1], jumpi := #[0, 0, 0], oob := false }
def sjJ2 : JumpSt := { nT := 3, nG := 0, buf := #[-1, 0, 1, 2, 3], sStack := #[], gMods := #[], tokens := #['a', 'b', 'c', '\x00'], jumps := #[1, 2, 3], jumpf := #[-1, -1, -1], jumpi := #[0, 0, 0], oob := false }
def sjJ3 : JumpSt := { nT := 3, nG := 0, buf := #[-1, 0, 1, 2, 3], sStack := #[], gMods := #[], tokens := #['a', 'b', 'c', '\x00'], jumps := #[1, 2, 3], jumpf := #[-1, -1, -1], jumpi := #[0, 0, 0], oob := false }
def progJ : Prog := { T := 3, tokens := #['a', 'b', 'c', '\x00'], jumps := #[1, 2, 3], jumpf := #[-1, -1, -1], jumpi := #[0, 0, 0] }
theorem sjJ0eq : setJumpInit 3 0 = sjJ0 := by decide
theorem sjJ1eq : pass1 ("abc".toList) 0 0 (-1) (-1) (-1) nulc sjJ0 = sjJ1 := by decide
theorem sjJ2eq : pass2 ("abc".toList) false 0 0 (-1) (-1) nulc 0 sjJ1 = sjJ2 := by decide
theorem sjJ3eq : pass3 ("abc".toList) false 0 0 (-1) (-1) nulc false sjJ2 = sjJ3 := by decide
theorem sjJeq : setJumpC ("abc".toList) 3 0 = sjJ3 := by
  rw [setJumpC, sjJ0eq, sjJ1eq, sjJ2eq, sjJ3eq]
theorem progJeq : mkProg sjJ3 = progJ := by decide

/-! ### Concrete `match` evaluations used by the claims -/

theorem matchDotStarAbc :
    matchC 400 (".*abc".toList) ("      abc".toList) = some (6, 9) := by
  have h1 : charAt ("      abc".toList) 0 ≠ nulc := by decide
  have hc : countC (".*abc".toList) = (5, 0) := by decide
  unfold matchC
  rw [if_neg h1, hc]
  rw [if_neg (show ¬ (((5 : Int), (0 : Int)).1 ≤ 0) by norm_num)]
  rw [sjAeq, progAeq]
  decide

theorem matchDotStar :
    matchC 100 (".*".toList) (".*".toList) = some (0, 0) := by
  have h1 : charAt (".*".toList) 0 ≠ nulc := by decide
  have hc : countC (".*".toList) = (2, 0) := by decide
  unfold matchC
  rw [if_neg h1, hc]
  rw [if_neg (show ¬ (((2 : Int), (0 : Int)).1 ≤ 0) by norm_num)]
  rw [sjBeq, progBeq]
  decide

theorem matchEndAnchor :
    matchC 600 (".*end{.}".toList) (" does it ever end".toList) = some (14, 18) := by
  have h1 : charAt (" does it ever end".toList) 0 ≠ nulc := by decide
  have hc : countC (".*end{.}".toList) = (6, 1) := by decide
  unfold matchC
  rw [if_neg h1, hc]
  rw [if_neg (show ¬ (((6 : Int), (1 : Int)).1 ≤ 0) by norm_num)]
  rw [sjCeq, progCeq]
  decide

theorem matchAltGroup :
    matchC 400 ("(x)(a|(b))c".toList) ("xabc".toList) = some (0, 4) := by
  have h1 : charAt ("xabc".toList) 0 ≠ nulc := by decide
  have hc : countC ("(x)(a|(b))c".toList) = (5, 3) := by decide
  unfold matchC
  rw [if_neg h1, hc]
  rw [if_neg (show ¬ (((5 : Int), (3 : Int)).1 ≤ 0) by norm_num)]
  rw [sjDeq, progDeq]
  decide

theorem matchAltGroupNegNeg :
    matchC 400 ("{{(x)(a|(b))c}}".toList) ("xabc".toList) = some (-1, 0) := by
  have h1 : charAt ("xabc".toList) 0 ≠ nulc := by decide
  have hc : countC ("{{(x)(a|(b))c}}".toList) = (5, 5) := by decide
  unfold matchC
  rw [if_neg h1, hc]
  rw [if_neg (show ¬ (((5 : Int), (5 : Int)).1 ≤ 0) by norm_num)]
  rw [sjEeq, progEeq]
  decide

theorem matchBracketLiteral :
    matchC 100 ("a]c".toList) ("a]c".toList) = some (0, 3) := by
  have h1 : charAt ("a]c".toList) 0 ≠ nulc := by decide
  have hc : countC ("a]c".toList) = (3, 0) := by decide
  unfold matchC
  rw [if_neg h1, hc]
  rw [if_neg (show ¬ (((3 : Int), (0 : Int)).1 ≤ 0) by norm_num)]
  rw [sjIeq, progIeq]
  decide

theorem matchAbcPlain :
    matchC 100 ("abc".toList) ("abc".toList) = some (0, 3) := by
  have h1 : charAt ("abc".toList) 0 ≠ nulc := by decide
  have hc : countC ("abc".toList) = (3, 0) := by decide
  unfold matchC
  rw [if_neg h1, hc]
  rw [if_neg (show ¬ (((3 : Int), (0 : Int)).1 ≤ 0) by norm_num)]
  rw [sjJeq, progJeq]
  decide

/-! ### Divergence of the simulator on `("(a*)*b", "x")`

The compiled program for `"(a*)*b"` contains the epsilon cycle
`1 → 0 → 1` (the inner hoisted `*` fails to the redirected outer `*`,
which succeeds back into the inner one).  Because a popped instruction's
membership flag is cleared immediately and re-pushing only requires an
origin that is not worse, the drain loop at position 0 re-enqueues
instructions 0 and 1 forever.  The six states below are the reachable
drain states; stepping maps the set into itself without ever returning,
so the C program never terminates on this input. -/

def simH0 : Sim := ⟨[0], [], #[true, false, false, false], #[false, false, false, false], #[0, -1, -1, -1, -1], 0⟩
def simH1 : Sim := ⟨[3, 1], [], #[false, true, false, true], #[false, false, false, false], #[0, 0, -1, 0, -1], 0⟩
def simH2 : Sim := ⟨[1], [], #[false, true, false, false], #[false, false, false, false], #[0, 0, -1, 0, -1], 0⟩
def simH3 : Sim := ⟨[0, 2], [], #[true, false, true, false], #[false, false, false, false], #[0, 0, 0, 0, -1], 0⟩
def simH4 : Sim := ⟨[3, 1, 2], [], #[false, true, true, true], #[false, false, false, false], #[0, 0, 0, 0, -1], 0⟩
def simH5 : Sim := ⟨[1, 2], [], #[false, true, true, false], #[false, false, false, false], #[0, 0, 0, 0, -1], 0⟩

def hangStates : List Sim := [simH0, simH1, simH2, simH3, simH4, simH5]

theorem hangStep :
    ∀ sm ∈ hangStates, ∃ sm2 ∈ hangStates, simStep progH ("x".toList) sm = .next sm2 := by
  decide

theorem hangLoop :
    ∀ fuel (sm : Sim), sm ∈ hangStates → simLoop progH ("x".toList) fuel sm = none := by
  intro fuel
  induction fuel with
  | zero => intro sm _; rfl
  | succ n ih =>
    intro sm hm
    obtain ⟨sm2, hm2, hstep⟩ := hangStep sm hm
    simp only [simLoop, hstep]
    exact ih sm2 hm2

/-! ### Bounds of a successful match

For every program (whatever the compiler produced) the simulator only
ever stores origins that are at most the current input position, and the
input position never passes the end of the input, so any successful
result `(s, e)` with `0 ≤ s` satisfies `s ≤ e ≤ |S| + 1`.  (The C code
can genuinely report `e = s` — acceptance through a hoisted `*` — and
`e = |S| + 1` — acceptance through a negated token's failure jump while
standing on the terminating NUL — so these bounds are tight.) -/


/-- Reading after an `Int`-indexed write. -/
theorem agetI_asetI (a : Array Int) (idx v j : Int) :
    agetI (asetI a idx v) j =
      if 0 ≤ idx ∧ idx.toNat < a.size ∧ idx = j then v else agetI a j := by
  by_cases h0 : 0 ≤ idx
  case neg =>
    rw [if_neg (fun hcon => h0 hcon.1)]
    unfold asetI
    rw [if_neg h0]
  case pos =>
    by_cases hs : idx.toNat < a.size
    case neg =>
      rw [if_neg (fun hcon => hs hcon.2.1)]
      unfold asetI Array.setD
      rw [if_pos h0, dif_neg hs]
    case pos =>
      unfold asetI Array.setD agetI
      rw [if_pos h0, dif_pos hs]
      by_cases hj : 0 ≤ j
      case neg =>
        rw [if_neg hj, if_neg hj, if_neg (by intro hcon; omega)]
      case pos =>
        rw [if_pos hj, if_pos hj]
        by_cases hlt : j.toNat < a.size
        case neg =>
          have hlt2 : ¬ j.toNat < (a.set ⟨idx.toNat, hs⟩ v).size := by simpa using hlt
          unfold Array.getD
          rw [dif_neg hlt2, dif_neg hlt,
            if_neg (by intro hcon; obtain ⟨h1, h2, h3⟩ := hcon; omega)]
        case pos =>
          have hlt2 : j.toNat < (a.set ⟨idx.toNat, hs⟩ v).size := by simpa using hlt
          unfold Array.getD
          rw [dif_pos hlt2, dif_pos hlt]
          have hset : (a.set ⟨idx.toNat, hs⟩ v).get ⟨j.toNat, hlt2⟩ =
              if idx.toNat = j.toNat then v else a.get ⟨j.toNat, hlt⟩ := by
            show (a.toList.set idx.toNat v).get
                ⟨j.toNat, by simpa using hlt⟩ = _
            rw [List.get_eq_getElem, List.getElem_set]
            rfl
          rw [hset]
          by_cases he : idx = j
          · rw [if_pos (by omega), if_pos ⟨h0, hs, he⟩]
          · rw [if_neg (by omega), if_neg (fun hcon => he hcon.2.2)]

/-- Bound on all origins after a write of a bounded value. -/
theorem agetI_asetI_le {a : Array Int} {m : Int} (h : ∀ k : Int, agetI a k ≤ m)
    {v : Int} (hv : v ≤ m) (idx : Int) :
    ∀ k : Int, agetI (asetI a idx v) k ≤ m := by
  intro k
  rw [agetI_asetI]
  split
  · exact hv
  · exact h k

/-- Position bound and origin bound maintained by the simulator. -/
def SimInv (S : List Char) (sm : Sim) : Prop :=
  sm.i ≤ S.length ∧ ∀ k : Int, agetI sm.active k ≤ (sm.i : Int)

theorem charAt_ne_nul {S : List Char} {i : Nat} (h : charAt S i ≠ nulc) :
    i < S.length := by
  by_contra hge
  push_neg at hge
  exact h (by simpa [charAt] using List.getD_eq_default _ _ hge)

/-- `STACK_NEXT_TOKEN` keeps every origin bounded when the pushed origin is. -/
theorem stackTok_act {T : Int} {stk : List Int} {flags : Array Bool}
    {act : Array Int} {dest val : Int} {i : Nat} {endInc : Bool} {m : Int}
    (h : ∀ k : Int, agetI act k ≤ m) (hval : val ≤ m) :
    ∀ k : Int, agetI (stackTok T stk flags act dest val i endInc).active k ≤ m := by
  unfold stackTok
  split
  · split
    · exact h
    · exact agetI_asetI_le h hval dest
  · exact h

/-- On accept, `STACK_NEXT_TOKEN` reports the pushed origin as start and
`i` or `i+1` as end. -/
theorem stackTok_res {T : Int} {stk : List Int} {flags : Array Bool}
    {act : Array Int} {dest val : Int} {i : Nat} {endInc : Bool} {v e : Int}
    (h : (stackTok T stk flags act dest val i endInc).res = some (v, e)) :
    v = val ∧ (e = (i : Int) ∨ e = (i : Int) + 1) := by
  unfold stackTok at h
  split at h
  · split at h
    · simp only [Option.some.injEq, Prod.mk.injEq] at h
      obtain ⟨h1, h2⟩ := h
      refine ⟨h1.symm, ?_⟩
      split at h2
      · right; omega
      · left; omega
    · simp at h
  · simp at h





theorem cast_le_succ (i : Nat) : ((i : Int)) ≤ ((i + 1 : Nat) : Int) := by
  push_cast; omega

theorem simStep_next_inv {p : Prog} {S : List Char} {sm sm2 : Sim}
    (h : simStep p S sm = .next sm2) (hi : SimInv S sm) : SimInv S sm2 := by
  obtain ⟨hiS, hact⟩ := hi
  unfold simStep at h
  split at h
  case h_1 j rest hcst =>
    dsimp only at h
    split at h
    case isTrue =>
      split at h
      case h_1 => exact absurd h (by simp)
      case h_2 r hr =>
        split at h
        case h_1 => exact absurd h (by simp)
        case h_2 r2 hr2 =>
          cases h
          refine ⟨hiS, ?_⟩
          have hv : (if j = 0 then (sm.i : Int) else agetI sm.active j) ≤ (sm.i : Int) := by
            split
            · exact le_refl _
            · exact hact j
          exact stackTok_act (stackTok_act hact hv) hv
    case isFalse =>
      split at h
      case isTrue =>
        split at h
        case h_1 => exact absurd h (by simp)
        case h_2 r hr =>
          cases h
          exact ⟨hiS, stackTok_act hact (hact j)⟩
      case isFalse =>
        split at h
        case isTrue =>
          split at h
          case h_1 => exact absurd h (by simp)
          case h_2 r hr =>
            cases h
            exact ⟨hiS, stackTok_act hact (hact j)⟩
        case isFalse =>
          split at h
          case h_1 => exact absurd h (by simp)
          case h_2 r hr =>
            cases h
            exact ⟨hiS, stackTok_act hact (hact j)⟩
  case h_2 hcst =>
    dsimp only at h
    split at h
    case isTrue => exact absurd h (by simp)
    case isFalse hnul =>
      split at h
      case isTrue => exact absurd h (by simp)
      case isFalse =>
        cases h
        refine ⟨charAt_ne_nul hnul, fun k => le_trans (hact k) (cast_le_succ sm.i)⟩





theorem simStep_ret_bounds {p : Prog} {S : List Char} {sm : Sim} {s e : Int}
    (h : simStep p S sm = .ret (s, e)) (hi : SimInv S sm) :
    (s = -1 ∧ e = 0) ∨ (s ≤ e ∧ e ≤ (S.length : Int) + 1) := by
  obtain ⟨hiS, hact⟩ := hi
  have hiSI : (sm.i : Int) ≤ (S.length : Int) := Int.ofNat_le.mpr hiS
  unfold simStep at h
  split at h
  case h_1 j rest hcst =>
    dsimp only at h
    split at h
    case isTrue =>
      have hv : (if j = 0 then (sm.i : Int) else agetI sm.active j) ≤ (sm.i : Int) := by
        split
        · exact le_refl _
        · exact hact j
      split at h
      case h_1 r hr =>
        cases r
        cases h
        obtain ⟨hs2, he⟩ := stackTok_res hr
        right
        rcases he with he | he <;> exact ⟨by omega, by omega⟩
      case h_2 r hr =>
        split at h
        case h_1 r2 hr2 =>
          cases r2
          cases h
          obtain ⟨hs2, he⟩ := stackTok_res hr2
          right
          rcases he with he | he <;> exact ⟨by omega, by omega⟩
        case h_2 => exact absurd h (by simp)
    case isFalse =>
      have hv : agetI sm.active j ≤ (sm.i : Int) := hact j
      split at h
      case isTrue =>
        split at h
        case h_1 r hr =>
          cases r
          cases h
          obtain ⟨hs2, he⟩ := stackTok_res hr
          right
          rcases he with he | he <;> exact ⟨by omega, by omega⟩
        case h_2 => exact absurd h (by simp)
      case isFalse =>
        split at h
        case isTrue =>
          split at h
          case h_1 r hr =>
            cases r
            cases h
            obtain ⟨hs2, he⟩ := stackTok_res hr
            right
            rcases he with he | he <;> exact ⟨by omega, by omega⟩
          case h_2 => exact absurd h (by simp)
        case isFalse =>
          split at h
          case h_1 r hr =>
            cases r
            cases h
            obtain ⟨hs2, he⟩ := stackTok_res hr
            right
            rcases he with he | he <;> exact ⟨by omega, by omega⟩
          case h_2 => exact absurd h (by simp)
  case h_2 hcst =>
    dsimp only at h
    split at h
    case isTrue =>
      cases h
      left
      exact ⟨rfl, rfl⟩
    case isFalse =>
      split at h
      case isTrue =>
        cases h
        left
        exact ⟨rfl, rfl⟩
      case isFalse => exact absurd h (by simp)

theorem simLoop_bounds {p : Prog} {S : List Char} :
    ∀ (fuel : Nat) (sm : Sim) (s e : Int),
      simLoop p S fuel sm = some (s, e) → SimInv S sm →
      (s = -1 ∧ e = 0) ∨ (s ≤ e ∧ e ≤ (S.length : Int) + 1) := by
  intro fuel
  induction fuel with
  | zero => intro sm s e h _; simp [simLoop] at h
  | succ n ih =>
    intro sm s e h hi
    cases hstep : simStep p S sm with
    | ret r =>
      rw [simLoop, hstep] at h
      simp only [Option.some.injEq] at h
      subst h
      exact simStep_ret_bounds hstep hi
    | next sm2 =>
      rw [simLoop, hstep] at h
      exact ih sm2 s e h (simStep_next_inv hstep hi)

theorem initSim_inv (T : Nat) (S : List Char) : SimInv S (initSim T) := by
  refine ⟨Nat.zero_le _, fun k => ?_⟩
  show agetI (asetI (Array.mkArray (T + 1) (-1)) 0 0) k ≤ (0 : Int)
  rw [agetI_asetI]
  split
  · exact le_refl _
  · unfold agetI Array.getD
    split
    · split
      · rename_i hk1 hk2
        have : (Array.mkArray (T + 1) (-1 : Int)).get ⟨k.toNat, hk2⟩ = -1 := by
          show (Array.mkArray (T + 1) (-1 : Int)).toList.get ⟨k.toNat, by simpa using hk2⟩ = -1
          simp [Array.mkArray]
        rw [this]
        omega
      · exact le_refl _
    · exact le_refl _

/-- **C1** (amended).  If `match(P, S)` returns `(s, e)` with `s ≥ 0`,
then `0 ≤ s ≤ e ≤ |S| + 1`.  The claim's strict `s < e` fails
(acceptance through a hoisted `*` reports `e = s`), and its bound
`e ≤ |S|` fails (a negated token accepting through its failure jump at
the end of the input reports `e = |S| + 1`); the leftmost-start clause
is likewise refuted by the counterexample, which exhibits a match
reported at `s = 14` although the pattern also matches starting at 0. -/
theorem match_success_bounds (fuel : Nat) (regex S : List Char) (s e : Int)
    (h : matchC fuel regex S = some (s, e)) (hs : 0 ≤ s) :
    0 ≤ s ∧ s ≤ e ∧ e ≤ (S.length : Int) + 1 := by
  unfold matchC at h
  split at h
  · simp only [Option.some.injEq, Prod.mk.injEq] at h
    omega
  · dsimp only at h
    split at h
    · split at h
      · simp only [Option.some.injEq, Prod.mk.injEq] at h
        omega
      · rename_i hle hne
        simp only [Option.some.injEq, Prod.mk.injEq] at h
        omega
    · unfold runProg at h
      have := simLoop_bounds fuel _ s e h (initSim_inv _ S)
      rcases this with ⟨rfl, _⟩ | hb
      · omega
      · exact ⟨hs, hb.1, hb.2⟩

/-! ### The claims -/

/-- **C1** (counterexample).  As stated — `s ≥ 0` implies
`0 ≤ s < e ≤ |S|` — the claim is false: `match(".*", ".*")` succeeds
with `s = e = 0`, and `match(".*end{.}", " does it ever end")` succeeds
with `e = 18` on an input of length 17. -/
theorem claim1_counterexample :
    matchC 100 (".*".toList) (".*".toList) = some (0, 0)
    ∧ ¬ ((0 : Int) < 0)
    ∧ matchC 600 (".*end{.}".toList) (" does it ever end".toList) = some (14, 18)
    ∧ ¬ ((18 : Int) ≤ ((" does it ever end".toList).length : Int)) :=
  ⟨matchDotStar, by decide, matchEndAnchor, by decide⟩

/-- **C1** (witness for the amended theorem): `match("abc", "abc")`
returns `(0, 3)` and the amended bounds hold there. -/
theorem match_success_bounds_witness :
    matchC 100 ("abc".toList) ("abc".toList) = some (0, 3)
    ∧ (0 : Int) ≤ 0
    ∧ (0 ≤ (0 : Int) ∧ (0 : Int) ≤ 3 ∧ (3 : Int) ≤ (("abc".toList).length : Int) + 1) :=
  ⟨matchAbcPlain, le_refl 0,
    match_success_bounds 100 ("abc".toList) ("abc".toList) 0 3 matchAbcPlain (le_refl 0)⟩

/-- **C2** (counterexample).  `match(".*abc", "      abc")` does not
return `(0, 9)`: it returns `(6, 9)` (the repository's own test table
expects start 6). -/
theorem claim2_counterexample :
    matchC 400 (".*abc".toList) ("      abc".toList) = some (6, 9)
    ∧ some ((6 : Int), (9 : Int)) ≠ some ((0 : Int), (9 : Int)) :=
  ⟨matchDotStarAbc, by decide⟩

/-- **C2** (amended).  `match(".*abc", "      abc")` returns `(6, 9)`:
the simulator resets the origin of instruction 0 at every position
("ignore leading tokens where possible"), so a leading `.*` does not
claim the skipped positions and the reported start is where the literal
tail begins. -/
theorem claim2_amended :
    matchC 400 (".*abc".toList) ("      abc".toList) = some (6, 9) :=
  matchDotStarAbc

/-- **C3**.  The pattern `((((x))))((((y))))((((z))))a|(w)` compiles
successfully (`T = 6`, `G = 13`), yet the wiring pass leaves its tables:
the redirect-table initialisation writes `redirect[j]` for every
`j < n_groups` (beyond the table whenever `G > T + 1`), and the
single-token-alternative wiring then reads `redirect` at index 8 > 6,
so the stored success target is whatever the adjacent memory holds —
not an element of `\x7b-1, …, T\x7d`. -/
theorem claim3_wiring_oob :
    countC ("((((x))))((((y))))((((z))))a|(w)".toList) = (6, 13)
    ∧ (setJumpC ("((((x))))((((y))))((((z))))a|(w)".toList) 6 13).oob = true := by
  refine ⟨by decide, ?_⟩
  rw [sjGeq]
  decide

/-- **C4**.  `match("(a*)*b", "x")` never returns: for every fuel bound
the simulator is still draining the stack at position 0.  The compiled
program has the epsilon cycle `1 → 0 → 1`, a popped instruction's
membership flag is cleared immediately (contrary to the spec's
"remains set until the position advances"), and re-pushing only
requires an origin that is no worse, so instructions 0 and 1 re-enqueue
each other forever. -/
theorem claim4_match_diverges :
    ∀ fuel : Nat, matchC fuel ("(a*)*b".toList) ("x".toList) = none := by
  intro fuel
  have h1 : charAt ("x".toList) 0 ≠ nulc := by decide
  have hc : countC ("(a*)*b".toList) = (4, 1) := by decide
  unfold matchC
  rw [if_neg h1, hc]
  rw [if_neg (show ¬ (((4 : Int), (1 : Int)).1 ≤ 0) by norm_num)]
  rw [sjHeq, progHeq]
  unfold runProg
  rw [show initSim (Prog.T progH).toNat = simH0 from by decide]
  exact hangLoop fuel simH0 (by decide)

/-- **C5** (counterexample).  `match("abc(", " ")` returns
`(-5, -2)`, not `(-5, -5)`: the unclosed-group error is
`REGEX_UNCLOSED_GROUP_ERROR = -2` in the code (shared with the
unterminated-class error), while `-5` is the empty-string sentinel. -/
theorem claim5_counterexample :
    matchC 100 ("abc(".toList) (" ".toList) = some (-5, -2)
    ∧ some ((-5 : Int), (-2 : Int)) ≠ some ((-5 : Int), (-5 : Int)) := by
  refine ⟨?_, by decide⟩
  decide

/-- **C5** (amended).  For the pattern `"abc("` and every non-empty
input, `match` returns `start = -5` (error position 4 encoded as
`-pos-1`) and `end = -2` (the code's unclosed-group error code). -/
theorem claim5_amended :
    ∀ (fuel : Nat) (S : List Char), charAt S 0 ≠ nulc →
      matchC fuel ("abc(".toList) S = some (-5, -2) := by
  intro fuel S h
  unfold matchC
  rw [if_neg h, (by decide : countC ("abc(".toList) = (-5, -2))]
  norm_num

/-- **C5** (witness): the amended theorem applied to the input `" "`. -/
theorem claim5_amended_witness :
    charAt (" ".toList) 0 ≠ nulc
    ∧ matchC 100 ("abc(".toList) (" ".toList) = some (-5, -2) :=
  ⟨by decide, claim5_amended 100 (" ".toList) (by decide)⟩

/-- **C6**.  For every pattern, including ill-formed ones, and every
fuel, `match(P, "")` returns `(-1, STRING_EMPTY_ERROR) = (-1, -5)`:
the empty-input check precedes pattern compilation. -/
theorem claim6_empty_input :
    ∀ (fuel : Nat) (regex : List Char),
      matchC fuel regex [] = some (-1, -5) := by
  intro fuel regex
  unfold matchC
  rw [if_pos (by rfl)]

/-- **C7**.  Every pattern whose first character is `)`, `]`, `\x7d`, `*`,
`?` or `|` is rejected at position 0 on any non-empty input:
`match` returns `(-1, -3)` (syntax error, `-(0+1) = -1`). -/
theorem claim7_leading_special_rejected :
    ∀ (c : Char), (c = ')' ∨ c = ']' ∨ c = '\x7d' ∨ c = '*' ∨ c = '?' ∨ c = '|') →
    ∀ (rest S : List Char) (fuel : Nat), charAt S 0 ≠ nulc →
      matchC fuel (c :: rest) S = some (-1, -3) := by
  intro c hc rest S fuel h0
  have hcount : countC (c :: rest) = (-1, -3) := by
    unfold countC countAux
    rcases hc with h | h | h | h | h | h <;> subst h <;>
      rw [if_neg (by decide), if_neg (by decide), if_neg (by decide),
        if_pos (Or.inl (by exact ⟨rfl, by decide⟩))] <;> norm_num
  unfold matchC
  rw [if_neg h0, hcount]
  norm_num

/-- **C7** (witness): the theorem applied to `match("*abc", " ")`,
which the repository's tests pin to `(-1, -3)`. -/
theorem claim7_witness :
    ((('*' : Char) = ')' ∨ ('*' : Char) = ']' ∨ ('*' : Char) = '\x7d'
      ∨ ('*' : Char) = '*' ∨ ('*' : Char) = '?' ∨ ('*' : Char) = '|')
    ∧ charAt (" ".toList) 0 ≠ nulc)
    ∧ matchC 100 ("*abc".toList) (" ".toList) = some (-1, -3) :=
  ⟨⟨by decide, by decide⟩,
    claim7_leading_special_rejected '*' (by decide) ("abc".toList) (" ".toList) 100 (by decide)⟩

/-- **C8**.  Double negation is not the identity the claim states: for
`P = (x)(a|(b))c` (whose only alternation is nested inside a group,
not top-level) both `P` and the brace-wrapped `P` compile, yet
`match(P, "xabc") = (0, 4)` while the brace-wrapped pattern gives
`(-1, 0)`.  The wiring pass reads `group_nexts[ng+1]`, one slot past
the `group_nexts` table, which aliases `gi_stack[0]`; the value found
there differs with and without the surrounding braces, so the left
alternative's success target differs (1 versus 0). -/
theorem claim8_negation_wrap_differs :
    matchC 400 ("(x)(a|(b))c".toList) ("xabc".toList) = some (0, 4)
    ∧ matchC 400 ("\x7b\x7b(x)(a|(b))c\x7d\x7d".toList) ("xabc".toList) = some (-1, 0)
    ∧ ((0 : Int), (4 : Int)) ≠ ((-1 : Int), (0 : Int)) :=
  ⟨matchAltGroup, matchAltGroupNegNeg, by decide⟩

/-- **C9**.  Even the simple pattern `((((a))))` (which compiles:
`T = 1`, `G = 4`) makes the wiring pass write outside its tables — the
initialisation `redirect[j] = j` for `j < n_groups` overruns the
redirect table whenever `G > T + 1`, in C clobbering the char stacks or
the heap beyond the allocation — so compiled programs can carry
jump targets taken from untracked memory and the claimed stack-index
safety has no basis in the code. -/
theorem claim9_tables_overrun :
    countC ("((((a))))".toList) = (1, 4)
    ∧ (setJumpC ("((((a))))".toList) 1 4).oob = true := by
  refine ⟨by decide, ?_⟩
  rw [sjFeq]
  decide

/-- **C10**.  A `]` outside any class, not at position 0 and not after
`|`, is an ordinary literal: `"a]c"` compiles to 3 tokens without
error and `match("a]c", "a]c") = (0, 3)`. -/
theorem claim10_bracket_literal :
    countC ("a]c".toList) = (3, 0)
    ∧ matchC 100 ("a]c".toList) ("a]c".toList) = some (0, 3) :=
  ⟨by decide, matchBracketLiteral⟩

end RegexC
